import Mathlib

/-!
Verification of `tui_base.py`, a small Textual TUI application.

The Python file is event-handler glue over the Textual framework.  We embed it
shallowly: each handler becomes a pure function on an explicit application
state.  Framework primitives (`exit`, `pop_screen`, `push_screen`, `mount`,
`save_screenshot`, `set_timer`, the text log) are modelled as explicit fields
of that state, and datetimes as a record of calendar fields together with the
two concrete format operations the code uses (`strftime("%b %d %H:%M:%S")`
and an abstract ISO string for `isoformat()`).
-/

namespace Tui

/-- Python `str(b)` for a `bool`: `"True"` / `"False"`. -/
def pyBoolStr (b : Bool) : String := if b then "True" else "False"

/-- Embedding of `str.replace(":", "_")` on the character list of a string: since the
pattern is a single character, the replacement is a pointwise map. -/
def replaceColonsL (l : List Char) : List Char :=
  l.map (fun c => if c = ':' then '_' else c)

/-- Embedding of `str.replace(":", "_")` lifted to `String`. -/
def replaceColons (s : String) : String := String.mk (replaceColonsL s.data)

/-- Embeds `TextualApp.get_screenshot_name`:
`f'screenshot_{datetime.now().isoformat().replace(":", "_")}.svg'`.
The ISO string produced by `datetime.now().isoformat()` is the argument. -/
def get_screenshot_name (iso : String) : String :=
  "screenshot_" ++ replaceColons iso ++ ".svg"

/-- A wall-clock instant, as the calendar fields used by
`strftime("%b %d %H:%M:%S")`. -/
structure DateTime where
  month : Nat
  day : Nat
  hour : Nat
  minute : Nat
  second : Nat
deriving Repr, DecidableEq

/-- Python `%b`: abbreviated month name (months are 1..12 in `datetime`). -/
def monthAbbrev : Nat → String
  | 1 => "Jan" | 2 => "Feb" | 3 => "Mar" | 4 => "Apr"
  | 5 => "May" | 6 => "Jun" | 7 => "Jul" | 8 => "Aug"
  | 9 => "Sep" | 10 => "Oct" | 11 => "Nov" | 12 => "Dec"
  | _ => ""

/-- Zero padding to two digits, as `%d`, `%H`, `%M`, `%S` produce. -/
def pad2 (n : Nat) : String := if n < 10 then "0" ++ toString n else toString n

/-- Embeds `datetime.now().strftime("%b %d %H:%M:%S")`. -/
def fmtTime (t : DateTime) : String :=
  monthAbbrev t.month ++ " " ++ pad2 t.day ++ " "
    ++ pad2 t.hour ++ ":" ++ pad2 t.minute ++ ":" ++ pad2 t.second

/-- A mounted `Notification` widget (`class Notification(Static)`): its text,
whether it has been removed, and the delay of its pending one-shot removal
timer, if armed. -/
structure Notif where
  message : String
  removed : Bool
  timerDelay : Option Nat
deriving Repr, DecidableEq

/-- Widget removal (`self.remove`). -/
def Notif.remove (n : Notif) : Notif :=
  { n with removed := true }

/-- Embeds `Notification.on_mount`: `self.set_timer(3, self.remove)` arms a one-shot
timer that removes the widget in 3 seconds. -/
def Notif.on_mount (n : Notif) : Notif :=
  { n with timerDelay := some 3 }

/-- Embeds `Notification.on_click`: `self.remove()`. -/
def Notif.on_click (n : Notif) : Notif :=
  Notif.remove n

/-- Passage of `t` seconds for a notification's one-shot timer: the timer
fires (running `remove`) once the armed delay has elapsed. -/
def Notif.elapse (t : Nat) (n : Notif) : Notif :=
  match n.timerDelay with
  | some d => if d ≤ t then Notif.remove { n with timerDelay := none } else
      { n with timerDelay := some (d - t) }
  | none => n

/-- The states of a Textual worker (`textual.worker.WorkerState`). -/
inductive WorkerSt where
  | pending
  | running
  | cancelled
  | error
  | success
deriving Repr, DecidableEq

/-- The observable state of the running `TextualApp`: the `dark` flag, whether
`exit()` was called, the stack of pushed screens (by name), the lines written
to the `TextLog`, the `Notification` widgets mounted on the screen, and the
screenshot files written as (directory, filename) pairs. -/
structure AppState where
  dark : Bool
  exited : Bool
  screenStack : List String
  logLines : List String
  notifications : List Notif
  savedFiles : List (String × String)
deriving Repr, DecidableEq

/-- Embeds `self.app.exit()`. -/
def app_exit (s : AppState) : AppState :=
  { s with exited := true }

/-- Embeds `self.app.pop_screen()`: dismisses the top screen of the stack. -/
def pop_screen (s : AppState) : AppState :=
  { s with screenStack := s.screenStack.tail }

/-- Embeds `self.push_screen(name)`. -/
def push_screen (name : String) (s : AppState) : AppState :=
  { s with screenStack := name :: s.screenStack }

/-- Embeds `self.screen.mount(Notification(msg))`: the widget is mounted, upon which
its `on_mount` hook fires (arming the removal timer). -/
def mountNotification (msg : String) (s : AppState) : AppState :=
  { s with notifications :=
      Notif.on_mount { message := msg, removed := false, timerDelay := none }
        :: s.notifications }

/-- Embeds `QuitScreen.on_button_pressed`: `if event.button.id == "quit":
self.app.exit() else: self.app.pop_screen()`. -/
def on_button_pressed (buttonId : String) (s : AppState) : AppState :=
  if buttonId = "quit" then app_exit s else pop_screen s

/-- Embeds `TextualApp.action_custom_dark` (a worker): `self.app.dark = not
self.app.dark`. -/
def action_custom_dark (s : AppState) : AppState :=
  { s with dark := !s.dark }

/-- Embeds `TextualApp.action_request_quit`. -/
def action_request_quit (s : AppState) : AppState :=
  push_screen "quit_screen" s

/-- Embeds `TextualApp.update_log`: writes the message to the `TextLog`, prefixed by
`datetime.now().strftime("%b %d %H:%M:%S") + ': '` when `timestamp` is true,
and mounts a `Notification` carrying the raw message when `notify` is true. -/
def update_log (t : DateTime) (message : String) (timestamp notify : Bool)
    (s : AppState) : AppState :=
  let s1 :=
    if timestamp then
      { s with logLines := (fmtTime t ++ ": " ++ message) :: s.logLines }
    else
      { s with logLines := message :: s.logLines }
  if notify then mountNotification message s1 else s1

/-- Embeds `self.save_screenshot(path=screen_dir, filename=screen_name)`: the
framework writes `filename` into the directory `path` and returns the
resulting output path. -/
def save_screenshot (path filename : String) (s : AppState) :
    String × AppState :=
  (path ++ "/" ++ filename, { s with savedFiles := (path, filename) :: s.savedFiles })

/-- Embeds `TextualApp.action_custom_screenshot(screen_dir)`: computes the
screenshot name, saves the screenshot under `screen_dir`, and reports the
output path with `update_log(..., notify=True)`. -/
def action_custom_screenshot (screen_dir : String) (iso : String)
    (t : DateTime) (s : AppState) : AppState :=
  let screen_name := get_screenshot_name iso
  let r := save_screenshot screen_dir screen_name s
  update_log t ("[bold]Screenshot saved to [green]'" ++ r.1 ++ "'") true true r.2

/-- Application of `action_custom_screenshot` as invoked by the `s` keybinding, with
`screen_dir` not supplied: the Python signature defaults it to `'/tmp'`. -/
def action_custom_screenshot_default (iso : String) (t : DateTime)
    (s : AppState) : AppState :=
  action_custom_screenshot "/tmp" iso t s

/-- Embeds `TextualApp.on_mount`: `message = f"Hello, \x7bos.getlogin()\x7d :)"` then
`self.screen.mount(Notification(message))`; `login` is the invoking user's
login name read from the process environment. -/
def TextualApp.on_mount (login : String) (s : AppState) : AppState :=
  mountNotification ("Hello, " ++ login ++ " :)") s

/-- Embeds `TextualApp.on_worker_state_changed`: reacts only to the
`action_custom_dark` worker reaching `SUCCESS`, logging and notifying the
current value of the `dark` flag. -/
def on_worker_state_changed (workerName : String) (state : WorkerSt)
    (t : DateTime) (s : AppState) : AppState :=
  if workerName = "action_custom_dark" then
    if state = WorkerSt.success then
      update_log t ("[bold]Dark mode: " ++ pyBoolStr s.dark) true true s
    else s
  else s

/-- Embeds `TextualApp.BINDINGS`: (key, action name, description) triples. -/
def BINDINGS : List (String × String × String) :=
  [("c", "custom_dark", "Color Toggle"),
   ("s", "custom_screenshot", "Screenshot"),
   ("q", "request_quit", "Quit")]

/-- Embeds `TextualApp.SCREENS`: installed named screens. -/
def SCREENS : List String := ["quit_screen"]


/-- Helper: replacing every colon by an underscore leaves no colon. -/
theorem colon_not_mem_replaceColonsL (l : List Char) : ':' ∉ replaceColonsL l := by
  intro h
  simp only [replaceColonsL, List.mem_map] at h
  obtain ⟨a, _, ha⟩ := h
  by_cases hc : a = ':' <;> simp [hc] at ha

/-- C1: for every ISO string returned by the clock, `get_screenshot_name`
yields `screenshot_` ++ (the ISO string with every colon replaced by an
underscore) ++ `.svg`, hence starts with `screenshot_`, ends with `.svg`,
and contains no colon character. -/
theorem screenshot_name_shape (iso : String) :
    (get_screenshot_name iso).data
      = "screenshot_".data ++ replaceColonsL iso.data ++ ".svg".data ∧
    "screenshot_".data <+: (get_screenshot_name iso).data ∧
    ".svg".data <:+ (get_screenshot_name iso).data ∧
    ':' ∉ (get_screenshot_name iso).data := by
  have heq : (get_screenshot_name iso).data
      = "screenshot_".data ++ replaceColonsL iso.data ++ ".svg".data := by
    simp [get_screenshot_name, replaceColons, String.data_append]
  refine ⟨heq, ?_, ?_, ?_⟩
  · exact ⟨replaceColonsL iso.data ++ ".svg".data, by simp [heq]⟩
  · exact ⟨"screenshot_".data ++ replaceColonsL iso.data, by simp [heq]⟩
  · rw [heq]
    intro h
    rcases List.mem_append.mp h with h1 | h2
    · rcases List.mem_append.mp h1 with h3 | h4
      · revert h3; decide
      · exact colon_not_mem_replaceColonsL iso.data h4
    · revert h2; decide

/-- C2: in the quit-confirmation modal, the button with id `quit` calls the
app's exit, while the `cancel` button leaves the exit flag untouched and pops
the modal screen, returning to the prior screen. -/
theorem quit_modal_buttons (s : AppState) :
    (on_button_pressed "quit" s).exited = true ∧
    (on_button_pressed "cancel" s).exited = s.exited ∧
    (on_button_pressed "cancel" s).screenStack = s.screenStack.tail ∧
    on_button_pressed "cancel" s = pop_screen s := by
  refine ⟨rfl, ?_, ?_, ?_⟩ <;>
    simp [on_button_pressed, app_exit, pop_screen]

/-- C3: the dark-mode action negates the `dark` flag, and the completion
callback (worker `action_custom_dark`, state success) logs and notifies a
message carrying the post-toggle value of the flag. -/
theorem dark_toggle_reports (s : AppState) (t : DateTime) :
    (action_custom_dark s).dark = !s.dark ∧
    (on_worker_state_changed "action_custom_dark" WorkerSt.success t
        (action_custom_dark s)).logLines
      = (fmtTime t ++ ": " ++ ("[bold]Dark mode: " ++ pyBoolStr (!s.dark)))
          :: s.logLines ∧
    (on_worker_state_changed "action_custom_dark" WorkerSt.success t
        (action_custom_dark s)).notifications
      = Notif.on_mount ⟨"[bold]Dark mode: " ++ pyBoolStr (!s.dark),
          false, none⟩ :: s.notifications := by
  refine ⟨rfl, ?_, ?_⟩ <;>
    simp [on_worker_state_changed, update_log, mountNotification,
      action_custom_dark]

/-- C4: on mount a notification arms a timer of exactly 3 seconds whose
action removes the widget: after 3 seconds the widget is removed, strictly
before 3 seconds it is not, and a click removes it immediately. -/
theorem notification_lifecycle (n : Notif) (t : Nat) (ht : t < 3) :
    (Notif.on_mount n).timerDelay = some 3 ∧
    (Notif.elapse 3 (Notif.on_mount n)).removed = true ∧
    (Notif.elapse t (Notif.on_mount n)).removed = n.removed ∧
    (Notif.on_click n).removed = true := by
  have h3 : ¬ (3 ≤ t) := by omega
  refine ⟨rfl, rfl, ?_, rfl⟩
  simp [Notif.elapse, Notif.on_mount, Notif.remove, h3]

/-- Witness for C4 at a concrete notification and a concrete time 2 < 3. -/
theorem notification_lifecycle_witness :
    (Notif.elapse 2 (Notif.on_mount ⟨"hi", false, none⟩)).removed = false :=
  (notification_lifecycle ⟨"hi", false, none⟩ 2 (by decide)).2.2.1

/-- C5: the screenshot action writes the file named by `get_screenshot_name`
into `screen_dir` (which is `/tmp` when not supplied), then reports a message
containing the output path both in the log and as a notification. -/
theorem screenshot_action_effects (dir iso : String) (t : DateTime)
    (s : AppState) :
    (action_custom_screenshot dir iso t s).savedFiles
      = (dir, get_screenshot_name iso) :: s.savedFiles ∧
    (action_custom_screenshot_default iso t s).savedFiles
      = ("/tmp", get_screenshot_name iso) :: s.savedFiles ∧
    (action_custom_screenshot dir iso t s).logLines
      = (fmtTime t ++ ": " ++ ("[bold]Screenshot saved to [green]'"
          ++ (dir ++ "/" ++ get_screenshot_name iso) ++ "'")) :: s.logLines ∧
    (action_custom_screenshot dir iso t s).notifications
      = Notif.on_mount ⟨"[bold]Screenshot saved to [green]'"
            ++ (dir ++ "/" ++ get_screenshot_name iso) ++ "'",
          false, none⟩ :: s.notifications := by
  refine ⟨?_, ?_, ?_, ?_⟩ <;>
    simp [action_custom_screenshot, action_custom_screenshot_default,
      save_screenshot, update_log, mountNotification]

/-- C6: on application mount, a notification is mounted on the screen whose
text is `Hello, <login> :)` for the invoking user's login name, and whose
self-removal timer is armed (it is self-dismissing). -/
theorem on_mount_greeting (login : String) (s : AppState) :
    (TextualApp.on_mount login s).notifications
      = ⟨"Hello, " ++ login ++ " :)", false, some 3⟩ :: s.notifications := by
  rfl

/-- C7: the registered keybindings are exactly `c` → `custom_dark`,
`s` → `custom_screenshot`, `q` → `request_quit`, and the request-quit action
pushes the quit-confirmation screen (installed under `quit_screen`). -/
theorem bindings_exact (s : AppState) :
    BINDINGS = [("c", "custom_dark", "Color Toggle"),
                ("s", "custom_screenshot", "Screenshot"),
                ("q", "request_quit", "Quit")] ∧
    (action_request_quit s).screenStack = "quit_screen" :: s.screenStack ∧
    "quit_screen" ∈ SCREENS := by
  refine ⟨rfl, rfl, by decide⟩

/-- C8: in the quit-modal dispatcher every button id other than `quit` pops
the screen and leaves the exit flag unchanged; exit happens only for `quit`. -/
theorem non_quit_button_pops (buttonId : String) (s : AppState)
    (h : buttonId ≠ "quit") :
    on_button_pressed buttonId s = pop_screen s ∧
    (on_button_pressed buttonId s).exited = s.exited ∧
    (on_button_pressed buttonId s).screenStack = s.screenStack.tail ∧
    (on_button_pressed "quit" s).exited = true := by
  refine ⟨?_, ?_, ?_, rfl⟩ <;> simp [on_button_pressed, h, pop_screen]

/-- Witness for C8 at the concrete non-quit id `retry`. -/
theorem non_quit_button_pops_witness :
    on_button_pressed "retry" ⟨false, false, ["quit_screen"], [], [], []⟩
      = pop_screen ⟨false, false, ["quit_screen"], [], [], []⟩ :=
  (non_quit_button_pops "retry" ⟨false, false, ["quit_screen"], [], [], []⟩
    (by decide)).1

/-- C9: with `timestamp` true the written line is the message prefixed by the
formatted current time and `: `; with `timestamp` false the message is
written unchanged; with `notify` true the mounted notification carries the
original message, without the timestamp. -/
theorem update_log_lines (t : DateTime) (msg : String) (notify : Bool)
    (s : AppState) :
    (update_log t msg true notify s).logLines
      = (fmtTime t ++ ": " ++ msg) :: s.logLines ∧
    (update_log t msg false notify s).logLines = msg :: s.logLines ∧
    (update_log t msg true true s).notifications
      = Notif.on_mount ⟨msg, false, none⟩ :: s.notifications ∧
    (update_log t msg false true s).notifications
      = Notif.on_mount ⟨msg, false, none⟩ :: s.notifications := by
  refine ⟨?_, ?_, ?_, ?_⟩ <;>
    cases notify <;> simp [update_log, mountNotification]

/-- C10: the worker-state handler is inert unless the worker is named
`action_custom_dark` and its state is success: for every other name or state
it returns the application state unchanged. -/
theorem worker_handler_inert (name : String) (st : WorkerSt) (t : DateTime)
    (s : AppState) (h : ¬(name = "action_custom_dark" ∧ st = WorkerSt.success)) :
    on_worker_state_changed name st t s = s := by
  unfold on_worker_state_changed
  by_cases hn : name = "action_custom_dark"
  · subst hn
    have hst : st ≠ WorkerSt.success := fun he => h ⟨rfl, he⟩
    simp [hst]
  · simp [hn]

/-- Witness for C10: the dark-mode worker merely entering the running state
changes nothing at a concrete application state. -/
theorem worker_handler_inert_witness :
    on_worker_state_changed "action_custom_dark" WorkerSt.running
        ⟨6, 29, 12, 0, 0⟩ ⟨true, false, [], [], [], []⟩
      = ⟨true, false, [], [], [], []⟩ :=
  worker_handler_inert "action_custom_dark" WorkerSt.running
    ⟨6, 29, 12, 0, 0⟩ ⟨true, false, [], [], [], []⟩ (by decide)

end Tui
